import Mathlib

/-!
Shallow embedding of `src/sys/fscontrol.c` from the Dokan kernel driver:
the file-system control dispatch (`DokanUserFsRequest`), oplock
arbitration (`DokanOplockRequest`), keepalive activation
(the `FSCTL_ACTIVATE_KEEPALIVE` case of `DokanUserFsRequest`), and
volume mounting (`DokanMountVolume`).

External kernel collaborators (`FsRtlOplockIsSharedRequest`,
`FsRtlOplockFsctrl`, `DokanFsRtlCheckLockForOplockRequest`,
`FsRtlAreThereCurrentOrInProgressFileLocks`, `IoCreateDevice`,
`FindMountEntry`) are modelled as oracle inputs bundled in environment
records, since their internals are out of scope for this subsystem.
Lock acquisition and release calls are recorded as explicit event
traces so that balance and ordering properties can be stated.
-/

namespace Dokan

/-- NTSTATUS success code. -/
def STATUS_SUCCESS : Nat := 0x00000000

/-- NTSTATUS invalid-parameter code. -/
def STATUS_INVALID_PARAMETER : Nat := 0xC000000D

/-- NTSTATUS buffer-too-small code. -/
def STATUS_BUFFER_TOO_SMALL : Nat := 0xC0000023

/-- NTSTATUS delete-pending code. -/
def STATUS_DELETE_PENDING : Nat := 0xC0000056

/-- NTSTATUS device-removed code. -/
def STATUS_DEVICE_REMOVED : Nat := 0xC00002B6

/-- NTSTATUS not-a-reparse-point code. -/
def STATUS_NOT_A_REPARSE_POINT : Nat := 0xC0000275

/-- NTSTATUS invalid-device-request code (the dispatcher's initial value,
returned for unsupported control codes). -/
def STATUS_INVALID_DEVICE_REQUEST : Nat := 0xC0000010

/-- NTSTATUS unrecognized-volume code. -/
def STATUS_UNRECOGNIZED_VOLUME : Nat := 0xC000014F

/-- An NTSTATUS value is a success status when its high bit is clear. -/
def NT_SUCCESS (status : Nat) : Prop := status < 0x80000000

instance (status : Nat) : Decidable (NT_SUCCESS status) := by
  unfold NT_SUCCESS; infer_instance

/-- Input-buffer flag: this generic FSCTL_REQUEST_OPLOCK is an oplock request. -/
def REQUEST_OPLOCK_INPUT_FLAG_REQUEST : Nat := 0x00000001

/-- Input-buffer flag: this generic FSCTL_REQUEST_OPLOCK is a break acknowledgement. -/
def REQUEST_OPLOCK_INPUT_FLAG_ACK : Nat := 0x00000002

/-- Requested-level bit meaning the oplock caches handle state. -/
def OPLOCK_LEVEL_CACHE_HANDLE : Nat := 0x00000002

/-- Minimum output buffer size for FSCTL_REQUEST_OPLOCK
(`sizeof(REQUEST_OPLOCK_OUTPUT_BUFFER)`; the exact byte count is
immaterial to the control flow, only the comparison against it). -/
def REQUEST_OPLOCK_OUTPUT_BUFFER_SIZE : Nat := 24

/-- `FlagOn(F, SingleFlag)` from ntifs: nonzero bitwise intersection. -/
def FlagOn (flags flag : Nat) : Bool := flags &&& flag != 0

/-- The file-system control codes dispatched by `DokanUserFsRequest`
(plus `unknown` for every code outside the recognized enumeration). -/
inductive FsCtlCode where
  | FSCTL_REQUEST_OPLOCK_LEVEL_1
  | FSCTL_REQUEST_OPLOCK_LEVEL_2
  | FSCTL_REQUEST_BATCH_OPLOCK
  | FSCTL_REQUEST_FILTER_OPLOCK
  | FSCTL_REQUEST_OPLOCK
  | FSCTL_OPLOCK_BREAK_ACKNOWLEDGE
  | FSCTL_OPBATCH_ACK_CLOSE_PENDING
  | FSCTL_OPLOCK_BREAK_NOTIFY
  | FSCTL_OPLOCK_BREAK_ACK_NO_2
  | FSCTL_ACTIVATE_KEEPALIVE
  | FSCTL_NOTIFY_PATH
  | FSCTL_LOCK_VOLUME
  | FSCTL_UNLOCK_VOLUME
  | FSCTL_IS_VOLUME_MOUNTED
  | FSCTL_GET_REPARSE_POINT
  | unknown (code : Nat)
deriving DecidableEq

/-- The `REQUEST_OPLOCK_INPUT_BUFFER` fields consumed by the code. -/
structure OplockInputBuffer where
  Flags : Nat
  RequestedOplockLevel : Nat
deriving DecidableEq

/-- The `DokanFCB` (Node) fields consumed by this file:
`DOKAN_FILE_DIRECTORY` flag, `DOKAN_DELETE_ON_CLOSE` flag, and the
open-handle count `FileCount`. -/
structure DokanFCB where
  isDirectory : Bool
  deleteOnClose : Bool
  FileCount : Nat
deriving DecidableEq

/-- The `DokanDCB` field consumed by `DokanOplockRequest`:
whether `MountOptions & DOKAN_EVENT_FILELOCK_USER_MODE` is set,
i.e. byte-range locking is handled by the user-mode file system
instead of the kernel's FsRtl lock package. -/
structure DokanDCB where
  filelockUserMode : Bool
deriving DecidableEq

/-- Validity of the ccb → fcb → vcb → dcb identity chain checked at the
top of `DokanOplockRequest` (each component non-null with the right
identifier type). -/
structure IdentityChain where
  ccbValid : Bool
  fcbValid : Bool
  vcbValid : Bool
  dcbValid : Bool
deriving DecidableEq

/-- All four links of the identity chain resolve. -/
def IdentityChain.ok (c : IdentityChain) : Prop :=
  c.ccbValid = true ∧ c.fcbValid = true ∧ c.vcbValid = true ∧ c.dcbValid = true

instance (c : IdentityChain) : Decidable c.ok := by
  unfold IdentityChain.ok; infer_instance

/-- Oracle results of the external FsRtl collaborators consulted by
`DokanOplockRequest`. -/
structure OplockEnv where
  /-- result of `FsRtlOplockIsSharedRequest(irp)` -/
  isSharedRequest : Bool
  /-- `DokanFsRtlCheckLockForOplockRequest` is non-null (Win8+) -/
  checkLockForOplockRequestAvailable : Bool
  /-- result of `DokanFsRtlCheckLockForOplockRequest(&fcb->FileLock, ...)` -/
  checkLockForOplockRequest : Bool
  /-- result of `FsRtlAreThereCurrentOrInProgressFileLocks(&fcb->FileLock)` -/
  areThereCurrentOrInProgressFileLocks : Bool
  /-- status returned by `FsRtlOplockFsctrl` -/
  oplockFsctrlStatus : Nat
deriving DecidableEq

/-- Lock acquisition/release calls made by this file, in call order. -/
inductive LockEvent where
  /-- `DokanVCBLockRO` -/
  | acquireVcbShared
  /-- `DokanFCBLockRW` -/
  | acquireFcbExclusive
  /-- `DokanFCBLockRO` -/
  | acquireFcbShared
  /-- `DokanFCBUnlock` -/
  | releaseFcb
  /-- `DokanVCBUnlock` -/
  | releaseVcb
deriving DecidableEq

/-- The request-class test at lines 180-186: level-1, batch, filter,
level-2, or the generic code with `REQUEST_OPLOCK_INPUT_FLAG_REQUEST`. -/
def isRequestClass (code : FsCtlCode) (buf : OplockInputBuffer) : Bool :=
  match code with
  | .FSCTL_REQUEST_OPLOCK_LEVEL_1 => true
  | .FSCTL_REQUEST_BATCH_OPLOCK => true
  | .FSCTL_REQUEST_FILTER_OPLOCK => true
  | .FSCTL_REQUEST_OPLOCK_LEVEL_2 => true
  | .FSCTL_REQUEST_OPLOCK => FlagOn buf.Flags REQUEST_OPLOCK_INPUT_FLAG_REQUEST
  | _ => false

/-- The acknowledge-class test at lines 218-224: break-acknowledge,
batch-ack-close-pending, break-notify, break-ack-no-2, or the generic
code with `REQUEST_OPLOCK_INPUT_FLAG_ACK`. -/
def isAckClass (code : FsCtlCode) (buf : OplockInputBuffer) : Bool :=
  match code with
  | .FSCTL_OPLOCK_BREAK_ACKNOWLEDGE => true
  | .FSCTL_OPBATCH_ACK_CLOSE_PENDING => true
  | .FSCTL_OPLOCK_BREAK_NOTIFY => true
  | .FSCTL_OPLOCK_BREAK_ACK_NO_2 => true
  | .FSCTL_REQUEST_OPLOCK => FlagOn buf.Flags REQUEST_OPLOCK_INPUT_FLAG_ACK
  | _ => false

/-- The delete-pending rejection test at lines 243-248: filter, batch,
or generic with `OPLOCK_LEVEL_CACHE_HANDLE`, on an fcb flagged
`DOKAN_DELETE_ON_CLOSE`. -/
def deletePendingApplies (code : FsCtlCode) (buf : OplockInputBuffer)
    (fcb : DokanFCB) : Bool :=
  (match code with
   | .FSCTL_REQUEST_FILTER_OPLOCK => true
   | .FSCTL_REQUEST_BATCH_OPLOCK => true
   | .FSCTL_REQUEST_OPLOCK => FlagOn buf.RequestedOplockLevel OPLOCK_LEVEL_CACHE_HANDLE
   | _ => false) && fcb.deleteOnClose

/-- Whether the FsRtl byte-range lock state would deny the oplock
request (the source comment at lines 201-204: "Set OplockCount to
nonzero if FsRtl denies access based on current byte-range lock
state"): on Win8+ the negation of `DokanFsRtlCheckLockForOplockRequest`,
otherwise `FsRtlAreThereCurrentOrInProgressFileLocks`. -/
def lockStateWouldBlock (env : OplockEnv) : Bool :=
  if env.checkLockForOplockRequestAvailable then !env.checkLockForOplockRequest
  else env.areThereCurrentOrInProgressFileLocks

/-- The `oplockCount` computation at lines 193-217 (request-class only):
0 when `DOKAN_EVENT_FILELOCK_USER_MODE` is set; otherwise, for a shared
request on a non-directory fcb the byte-range-lock block indicator, for
a shared request on a directory 0, and for a non-shared request
`fcb->FileCount`. -/
def oplockCountFor (env : OplockEnv) (dcb : DokanDCB) (fcb : DokanFCB) : Nat :=
  if dcb.filelockUserMode = false then
    if env.isSharedRequest = true then
      if fcb.isDirectory = false then
        if lockStateWouldBlock env = true then 1 else 0
      else 0
    else fcb.FileCount
  else 0

/-- Result of the `try` block of `DokanOplockRequest` (lines 174-272),
before the `finally` release clause: the status, the `acquiredVcb` /
`acquiredFcb` flags, the acquisition events performed, the conflict
hint passed to `FsRtlOplockFsctrl` (if it was invoked), and whether
`*pIrp` was cleared. -/
structure OplockTryResult where
  status : Nat
  acquiredVcb : Bool
  acquiredFcb : Bool
  acqEvents : List LockEvent
  delegated : Option Nat
  irpCleared : Bool
deriving DecidableEq

/-- The `try` block of `DokanOplockRequest`: classify the code as
request-class (VCB shared + FCB exclusive, conflict-hint computation),
acknowledge-class (FCB shared), or malformed (invalid-parameter with no
locks); then the delete-pending rejection; then delegation to
`FsRtlOplockFsctrl` followed by `*pIrp = NULL`. -/
def oplockTryBody (env : OplockEnv) (dcb : DokanDCB) (fcb : DokanFCB)
    (code : FsCtlCode) (buf : OplockInputBuffer) : OplockTryResult :=
  if isRequestClass code buf = true then
    if deletePendingApplies code buf fcb = true then
      ⟨STATUS_DELETE_PENDING, true, true,
        [.acquireVcbShared, .acquireFcbExclusive], none, false⟩
    else
      ⟨env.oplockFsctrlStatus, true, true,
        [.acquireVcbShared, .acquireFcbExclusive],
        some (oplockCountFor env dcb fcb), true⟩
  else if isAckClass code buf = true then
    if deletePendingApplies code buf fcb = true then
      ⟨STATUS_DELETE_PENDING, false, true, [.acquireFcbShared], none, false⟩
    else
      ⟨env.oplockFsctrlStatus, false, true, [.acquireFcbShared], some 0, true⟩
  else
    ⟨STATUS_INVALID_PARAMETER, false, false, [], none, false⟩

/-- Observable outcome of `DokanOplockRequest`: returned status, the
full lock event trace (acquisitions from the `try` block followed by
the `finally` releases), the conflict hint passed to
`FsRtlOplockFsctrl` (`none` when the arbiter was not invoked), and
whether the caller's `*pIrp` was set to NULL. -/
structure OplockResult where
  status : Nat
  events : List LockEvent
  delegated : Option Nat
  irpCleared : Bool
deriving DecidableEq

/-- `DokanOplockRequest` (lines 89-288): identity-chain validation,
minimum output-buffer check for the generic code, the directory
restriction (only a generic shared request is allowed on a directory),
then the `try` body, then the `finally` clause releasing the FCB and
VCB locks exactly when their `acquired` flags were set.
The input buffer is modelled as always successfully retrievable
(`GET_IRP_BUFFER_OR_RETURN` succeeding); it is only consulted when the
code is `FSCTL_REQUEST_OPLOCK`, as in the source. -/
def DokanOplockRequest (chain : IdentityChain) (env : OplockEnv)
    (dcb : DokanDCB) (fcb : DokanFCB) (code : FsCtlCode)
    (buf : OplockInputBuffer) (outputBufferLength : Nat) : OplockResult :=
  if chain.ccbValid = false then ⟨STATUS_INVALID_PARAMETER, [], none, false⟩
  else if chain.fcbValid = false then ⟨STATUS_INVALID_PARAMETER, [], none, false⟩
  else if chain.vcbValid = false then ⟨STATUS_INVALID_PARAMETER, [], none, false⟩
  else if chain.dcbValid = false then ⟨STATUS_INVALID_PARAMETER, [], none, false⟩
  else if code = .FSCTL_REQUEST_OPLOCK ∧
      outputBufferLength < REQUEST_OPLOCK_OUTPUT_BUFFER_SIZE then
    ⟨STATUS_BUFFER_TOO_SMALL, [], none, false⟩
  else if fcb.isDirectory = true ∧
      (code ≠ .FSCTL_REQUEST_OPLOCK ∨ env.isSharedRequest = false) then
    ⟨STATUS_INVALID_PARAMETER, [], none, false⟩
  else
    let b := oplockTryBody env dcb fcb code buf
    ⟨b.status,
      b.acqEvents ++ (if b.acquiredFcb then [.releaseFcb] else [])
        ++ (if b.acquiredVcb then [.releaseVcb] else []),
      b.delegated, b.irpCleared⟩

/-- The per-handle and per-volume keepalive flags mutated by the
`FSCTL_ACTIVATE_KEEPALIVE` case (`ccb->IsKeepaliveActive` and
`fcb->Vcb->IsKeepaliveActive`). -/
structure KeepaliveState where
  ccbIsKeepaliveActive : Bool
  vcbIsKeepaliveActive : Bool
deriving DecidableEq

/-- Outcome of the `FSCTL_ACTIVATE_KEEPALIVE` case: status, the
(possibly updated) keepalive flags, and the lock events performed. -/
structure KeepaliveResult where
  status : Nat
  state : KeepaliveState
  events : List LockEvent
deriving DecidableEq

/-- The `FSCTL_ACTIVATE_KEEPALIVE` case of `DokanUserFsRequest`
(lines 304-351): validate FileObject/ccb/fcb, require
`fcb->IsKeepalive`, reject when a *different* handle already holds the
volume's keepalive (`fcb->Vcb->IsKeepaliveActive && !ccb->IsKeepaliveActive`),
otherwise set both flags to TRUE under the FCB exclusive lock. -/
def activateKeepalive (fileObjectPresent ccbValid fcbValid fcbIsKeepalive : Bool)
    (s : KeepaliveState) : KeepaliveResult :=
  if fileObjectPresent = false then ⟨STATUS_INVALID_PARAMETER, s, []⟩
  else if ccbValid = false then ⟨STATUS_INVALID_PARAMETER, s, []⟩
  else if fcbValid = false then ⟨STATUS_INVALID_PARAMETER, s, []⟩
  else if fcbIsKeepalive = false then ⟨STATUS_INVALID_PARAMETER, s, []⟩
  else if s.vcbIsKeepaliveActive = true ∧ s.ccbIsKeepaliveActive = false then
    ⟨STATUS_INVALID_PARAMETER, s, []⟩
  else
    ⟨STATUS_SUCCESS, ⟨true, true⟩, [.acquireFcbExclusive, .releaseFcb]⟩

/-- A volume's keepalive state lifted over all of its open handles:
the volume flag plus one `IsKeepaliveActive` flag per HandleContext. -/
structure VolumeKeepalive where
  vcbActive : Bool
  handles : List Bool
deriving DecidableEq

/-- Run `activateKeepalive` (all identity checks passing) on behalf of
handle `i` of the volume, folding the result back into the per-volume
view: on success the volume flag and handle `i`'s flag become true, on
failure nothing changes. -/
def activateAt (v : VolumeKeepalive) (i : Nat) : VolumeKeepalive :=
  let r := activateKeepalive true true true true
    ⟨v.handles.getD i false, v.vcbActive⟩
  if r.status = STATUS_SUCCESS then ⟨true, v.handles.set i true⟩ else v

/-- Number of handles whose keepalive flag is set. -/
def activeCount : List Bool → Nat
  | [] => 0
  | b :: t => (if b then 1 else 0) + activeCount t

/-- At most one HandleContext per volume holds keepalive, and none does
while the volume flag is clear. -/
def keepaliveInv (v : VolumeKeepalive) : Prop :=
  activeCount v.handles ≤ 1 ∧ (v.vcbActive = false → activeCount v.handles = 0)

/-- The inputs of one `DokanUserFsRequest` dispatch: the control code
plus everything the individual cases consult. -/
structure FsRequest where
  code : FsCtlCode
  chain : IdentityChain
  env : OplockEnv
  dcb : DokanDCB
  fcb : DokanFCB
  buf : OplockInputBuffer
  outputBufferLength : Nat
  /-- `irpSp->FileObject != NULL` (keepalive and notify cases) -/
  fileObjectPresent : Bool
  /-- `fcb->IsKeepalive` -/
  fcbIsKeepalive : Bool
  /-- `GET_IRP_NOTIFY_PATH_INTERMEDIATE_OR_RETURN` succeeds -/
  notifyBufferOk : Bool
  /-- status returned by `DokanNotifyReportChange0` -/
  notifyStatus : Nat
deriving DecidableEq

/-- `DokanUserFsRequest` (lines 290-450): route on the control code.
All nine oplock codes go to `DokanOplockRequest`; keepalive activation
and path notification have their own cases; lock/unlock/mounted-query
always succeed; the reparse query always reports not-a-reparse-point;
any unrecognized code leaves the initial
`STATUS_INVALID_DEVICE_REQUEST`. Returns the status and the (possibly
updated) keepalive state; no other case mutates state in this file. -/
def DokanUserFsRequest (req : FsRequest) (s : KeepaliveState) :
    Nat × KeepaliveState :=
  match req.code with
  | .FSCTL_ACTIVATE_KEEPALIVE =>
      let r := activateKeepalive req.fileObjectPresent req.chain.ccbValid
        req.chain.fcbValid req.fcbIsKeepalive s
      (r.status, r.state)
  | .FSCTL_NOTIFY_PATH =>
      if req.notifyBufferOk = false then (STATUS_BUFFER_TOO_SMALL, s)
      else if req.fileObjectPresent = false then (STATUS_INVALID_PARAMETER, s)
      else if req.chain.ccbValid = false then (STATUS_INVALID_PARAMETER, s)
      else if req.chain.fcbValid = false then (STATUS_INVALID_PARAMETER, s)
      else (req.notifyStatus, s)
  | .FSCTL_REQUEST_OPLOCK_LEVEL_1
  | .FSCTL_REQUEST_OPLOCK_LEVEL_2
  | .FSCTL_REQUEST_BATCH_OPLOCK
  | .FSCTL_OPLOCK_BREAK_ACKNOWLEDGE
  | .FSCTL_OPBATCH_ACK_CLOSE_PENDING
  | .FSCTL_OPLOCK_BREAK_NOTIFY
  | .FSCTL_OPLOCK_BREAK_ACK_NO_2
  | .FSCTL_REQUEST_FILTER_OPLOCK
  | .FSCTL_REQUEST_OPLOCK =>
      ((DokanOplockRequest req.chain req.env req.dcb req.fcb req.code req.buf
          req.outputBufferLength).status, s)
  | .FSCTL_LOCK_VOLUME => (STATUS_SUCCESS, s)
  | .FSCTL_UNLOCK_VOLUME => (STATUS_SUCCESS, s)
  | .FSCTL_IS_VOLUME_MOUNTED => (STATUS_SUCCESS, s)
  | .FSCTL_GET_REPARSE_POINT => (STATUS_NOT_A_REPARSE_POINT, s)
  | .unknown _ => (STATUS_INVALID_DEVICE_REQUEST, s)

/-- Oracle results of the external collaborators of `DokanMountVolume`. -/
structure MountEnv where
  /-- status of `IoCreateDevice` / `IoCreateDeviceSecure` -/
  ioCreateDeviceStatus : Nat
  /-- `FindMountEntry(dcb->Global, &dokanControl, TRUE) != NULL` -/
  mountEntryFound : Bool
deriving DecidableEq

/-- The `DokanDCB` fields consumed by `DokanMountVolume`. -/
structure MountDcb where
  /-- the mount device's `DeviceExtension` is non-null -/
  extensionPresent : Bool
  /-- `GetIdentifierType(dcb) == DCB` -/
  identifierIsDCB : Bool
  /-- `IsDeletePending(dcb->DeviceObject)` -/
  deletePending : Bool
  /-- `dcb->VolumeDeviceType == FILE_DEVICE_NETWORK_FILE_SYSTEM` -/
  isNetworkFileSystem : Bool
  fcbGarbageCollectionIntervalMs : Nat
  useMountManager : Bool
  /-- `IsMountPointDriveLetter(dcb->MountPoint)` -/
  mountPointIsDriveLetter : Bool
deriving DecidableEq

/-- Externally visible steps taken by `DokanMountVolume`, in order. -/
inductive MountEvent where
  /-- `ExAcquireResourceExclusiveLite(&dcb->Resource, TRUE)` -/
  | acquireResource
  /-- `ExReleaseResourceLite(&dcb->Resource)` -/
  | releaseResource
  /-- `ExAcquireResourceExclusiveLite(&dcb->Global->MountManagerLock, TRUE)` -/
  | acquireMountManagerLock
  /-- `ExReleaseResourceLite(&dcb->Global->MountManagerLock)` -/
  | releaseMountManagerLock
  /-- `DokanStartFcbGarbageCollector(vcb)` -/
  | startGarbageCollector
  /-- `DokanStartCheckThread(dcb)` -/
  | startCheckThread
  /-- `DokanSendVolumeArrivalNotification(dcb->DiskDeviceName)` -/
  | sendArrivalNotification
  /-- `DokanCreateMountPoint(dcb)` -/
  | createMountPoint
  /-- `RunAsSystem(DokanRegisterUncProvider, dcb)` -/
  | registerUncProvider
deriving DecidableEq

/-- Count of a given event in a trace. -/
def countE (e : MountEvent) : List MountEvent → Nat
  | [] => 0
  | x :: t => (if x = e then 1 else 0) + countE e t

/-- Observable outcome of `DokanMountVolume`: returned status, whether
the volume device object was created, whether its `VCB_MOUNTED` flag
was set, whether it was attached to a mount-table entry
(`mountEntry->MountControl.VolumeDeviceObject = volDeviceObject`), and
the trace of external steps. -/
structure MountResult where
  status : Nat
  volumeCreated : Bool
  vcbMounted : Bool
  entryAttached : Bool
  events : List MountEvent
deriving DecidableEq

/-- `DokanMountVolume` (lines 582-759): identity checks on the mount
device (unrecognized-volume on failure), the pending-removal guard
(device-removed before any volume is created), device creation
(propagating the `IoCreateDevice` failure status), VCB initialization
with conditional garbage-collector start, setting `VCB_MOUNTED`, then
the mount-table publish under `dcb->Resource` (device-removed when no
matching entry exists, releasing the lock without rolling back), the
timeout refresh plus check-thread start, mount-manager notification,
mount-point creation, and UNC-provider registration.
`DokanSendVolumeArrivalNotification` failure is logged only; the
success path returns `STATUS_SUCCESS` regardless. -/
def DokanMountVolume (env : MountEnv) (dcb : MountDcb) : MountResult :=
  if dcb.extensionPresent = false then
    ⟨STATUS_UNRECOGNIZED_VOLUME, false, false, false, []⟩
  else if dcb.identifierIsDCB = false then
    ⟨STATUS_UNRECOGNIZED_VOLUME, false, false, false, []⟩
  else if dcb.deletePending = true then
    ⟨STATUS_DEVICE_REMOVED, false, false, false, []⟩
  else if ¬ NT_SUCCESS env.ioCreateDeviceStatus then
    ⟨env.ioCreateDeviceStatus, false, false, false, []⟩
  else
    let gcEvents : List MountEvent :=
      if dcb.fcbGarbageCollectionIntervalMs ≠ 0 then [.startGarbageCollector]
      else []
    if env.mountEntryFound = false then
      ⟨STATUS_DEVICE_REMOVED, true, true, false,
        gcEvents ++ [.acquireResource, .releaseResource]⟩
    else
      let mmEvents : List MountEvent :=
        if dcb.useMountManager then
          if dcb.mountPointIsDriveLetter = false then
            [.acquireMountManagerLock, .sendArrivalNotification,
              .releaseMountManagerLock]
          else [.sendArrivalNotification]
        else []
      let mpEvents : List MountEvent :=
        if dcb.mountPointIsDriveLetter then [.createMountPoint] else []
      let uncEvents : List MountEvent :=
        if dcb.isNetworkFileSystem then [.registerUncProvider] else []
      ⟨STATUS_SUCCESS, true, true, true,
        gcEvents ++ [.acquireResource, .releaseResource, .acquireResource,
          .releaseResource, .startCheckThread] ++ mmEvents ++ mpEvents
          ++ uncEvents⟩

/-- The spec's phrase "configured for host-native locking", i.e. the
host kernel's native FsRtl lock package handles byte-range locks,
which is the case exactly when `DOKAN_EVENT_FILELOCK_USER_MODE` is
*not* set (when set, locking is delegated to the cooperating user-mode
client). -/
def hostNativeLocking (dcb : DokanDCB) : Bool := !dcb.filelockUserMode

/-- When the identity chain resolves, the output buffer is adequate and
the directory restriction passes, `DokanOplockRequest` is the `try`
body followed by the `finally` releases. -/
lemma DokanOplockRequest_eq_tryBody (chain : IdentityChain) (env : OplockEnv)
    (dcb : DokanDCB) (fcb : DokanFCB) (code : FsCtlCode)
    (buf : OplockInputBuffer) (outLen : Nat)
    (hchain : chain.ok)
    (hbuf : ¬(code = .FSCTL_REQUEST_OPLOCK ∧
      outLen < REQUEST_OPLOCK_OUTPUT_BUFFER_SIZE))
    (hdir : ¬(fcb.isDirectory = true ∧
      (code ≠ .FSCTL_REQUEST_OPLOCK ∨ env.isSharedRequest = false))) :
    DokanOplockRequest chain env dcb fcb code buf outLen =
      ⟨(oplockTryBody env dcb fcb code buf).status,
        (oplockTryBody env dcb fcb code buf).acqEvents
          ++ (if (oplockTryBody env dcb fcb code buf).acquiredFcb then
                [.releaseFcb] else [])
          ++ (if (oplockTryBody env dcb fcb code buf).acquiredVcb then
                [.releaseVcb] else []),
        (oplockTryBody env dcb fcb code buf).delegated,
        (oplockTryBody env dcb fcb code buf).irpCleared⟩ := by
  obtain ⟨c1, c2, c3, c4⟩ := hchain
  simp [DokanOplockRequest, c1, c2, c3, c4, hbuf, hdir]

/-- Claim C5: on every exit path of `DokanOplockRequest` the lock trace
is one of: no lock touched at all; Volume acquired shared then Node
exclusive, released as Node then Volume (request class); or Node
acquired shared and then released (acknowledge class).  Hence every
acquired lock is released exactly once, in reverse acquisition order,
no path exits holding a lock, and no path releases a lock it did not
acquire — including the early rejections and the delegate-failure
paths. -/
theorem oplock_lock_balance (chain : IdentityChain) (env : OplockEnv)
    (dcb : DokanDCB) (fcb : DokanFCB) (code : FsCtlCode)
    (buf : OplockInputBuffer) (outLen : Nat) :
    (DokanOplockRequest chain env dcb fcb code buf outLen).events = [] ∨
    (DokanOplockRequest chain env dcb fcb code buf outLen).events =
      [.acquireVcbShared, .acquireFcbExclusive, .releaseFcb, .releaseVcb] ∨
    (DokanOplockRequest chain env dcb fcb code buf outLen).events =
      [.acquireFcbShared, .releaseFcb] := by
  unfold DokanOplockRequest oplockTryBody
  split_ifs <;> simp

/-- Claim C8: `DokanOplockRequest` clears the caller's `*pIrp` exactly
when it delegated the request to `FsRtlOplockFsctrl`, regardless of the
status the arbiter reported; every path that does not reach delegation
leaves the pointer with the caller. -/
theorem oplock_irp_ownership (chain : IdentityChain) (env : OplockEnv)
    (dcb : DokanDCB) (fcb : DokanFCB) (code : FsCtlCode)
    (buf : OplockInputBuffer) (outLen : Nat) :
    (DokanOplockRequest chain env dcb fcb code buf outLen).irpCleared =
      ((DokanOplockRequest chain env dcb fcb code buf outLen).delegated).isSome := by
  unfold DokanOplockRequest oplockTryBody
  split_ifs <;> simp

/-- Claim C2: on a Node flagged as a directory, every oplock control
request that is not a generic shared request — in particular level-1,
level-2, batch, filter, and exclusive generic requests — returns
`STATUS_INVALID_PARAMETER` without invoking `FsRtlOplockFsctrl` and
without touching any lock, whatever the arbiter would have returned. -/
theorem oplock_directory_rejects (chain : IdentityChain) (env : OplockEnv)
    (dcb : DokanDCB) (fcb : DokanFCB) (code : FsCtlCode)
    (buf : OplockInputBuffer) (outLen : Nat)
    (hchain : chain.ok)
    (hbuf : code = .FSCTL_REQUEST_OPLOCK →
      REQUEST_OPLOCK_OUTPUT_BUFFER_SIZE ≤ outLen)
    (hdir : fcb.isDirectory = true)
    (hns : code ≠ .FSCTL_REQUEST_OPLOCK ∨ env.isSharedRequest = false) :
    (DokanOplockRequest chain env dcb fcb code buf outLen).status =
      STATUS_INVALID_PARAMETER ∧
    (DokanOplockRequest chain env dcb fcb code buf outLen).delegated = none ∧
    (DokanOplockRequest chain env dcb fcb code buf outLen).events = [] := by
  obtain ⟨c1, c2, c3, c4⟩ := hchain
  have hb : ¬(code = .FSCTL_REQUEST_OPLOCK ∧
      outLen < REQUEST_OPLOCK_OUTPUT_BUFFER_SIZE) := by
    rintro ⟨h1, h2⟩
    exact absurd (hbuf h1) (by omega)
  have hd : fcb.isDirectory = true ∧
      (code ≠ .FSCTL_REQUEST_OPLOCK ∨ env.isSharedRequest = false) :=
    ⟨hdir, hns⟩
  simp [DokanOplockRequest, c1, c2, c3, c4, hb, hd]

/-- Claim C2 witness: a level-2 request on a directory Node is rejected
with invalid-parameter and no delegation even though the request is
classified shared by FsRtl. -/
theorem oplock_directory_rejects_witness :
    (DokanOplockRequest ⟨true, true, true, true⟩ ⟨true, true, true, false, 0⟩
        ⟨false⟩ ⟨true, false, 0⟩ .FSCTL_REQUEST_OPLOCK_LEVEL_2 ⟨0, 0⟩ 0).status =
      STATUS_INVALID_PARAMETER ∧
    (DokanOplockRequest ⟨true, true, true, true⟩ ⟨true, true, true, false, 0⟩
        ⟨false⟩ ⟨true, false, 0⟩ .FSCTL_REQUEST_OPLOCK_LEVEL_2 ⟨0, 0⟩ 0).delegated =
      none ∧
    (DokanOplockRequest ⟨true, true, true, true⟩ ⟨true, true, true, false, 0⟩
        ⟨false⟩ ⟨true, false, 0⟩ .FSCTL_REQUEST_OPLOCK_LEVEL_2 ⟨0, 0⟩ 0).events =
      [] :=
  oplock_directory_rejects _ _ _ _ _ _ _ ⟨rfl, rfl, rfl, rfl⟩ (by decide) rfl
    (Or.inl (by decide))

/-- Claim C3: a generic `FSCTL_REQUEST_OPLOCK` whose input flags set
neither `REQUEST_OPLOCK_INPUT_FLAG_REQUEST` nor
`REQUEST_OPLOCK_INPUT_FLAG_ACK` returns `STATUS_INVALID_PARAMETER`
with an empty lock trace: neither the Volume lock nor the Node lock was
acquired on that path. -/
theorem oplock_generic_no_flags (chain : IdentityChain) (env : OplockEnv)
    (dcb : DokanDCB) (fcb : DokanFCB) (buf : OplockInputBuffer) (outLen : Nat)
    (hchain : chain.ok)
    (hbuf : REQUEST_OPLOCK_OUTPUT_BUFFER_SIZE ≤ outLen)
    (hreqflag : FlagOn buf.Flags REQUEST_OPLOCK_INPUT_FLAG_REQUEST = false)
    (hackflag : FlagOn buf.Flags REQUEST_OPLOCK_INPUT_FLAG_ACK = false) :
    (DokanOplockRequest chain env dcb fcb .FSCTL_REQUEST_OPLOCK buf
        outLen).status = STATUS_INVALID_PARAMETER ∧
    (DokanOplockRequest chain env dcb fcb .FSCTL_REQUEST_OPLOCK buf
        outLen).events = [] := by
  obtain ⟨c1, c2, c3, c4⟩ := hchain
  have hlt : ¬ outLen < REQUEST_OPLOCK_OUTPUT_BUFFER_SIZE := by omega
  by_cases hd : fcb.isDirectory = true ∧
      (FsCtlCode.FSCTL_REQUEST_OPLOCK ≠ .FSCTL_REQUEST_OPLOCK ∨
        env.isSharedRequest = false)
  · have hsf : env.isSharedRequest = false := by
      rcases hd with ⟨-, h | h⟩
      · exact absurd rfl h
      · exact h
    simp [DokanOplockRequest, c1, c2, c3, c4, hlt, hd.1, hsf]
  · simp [DokanOplockRequest, oplockTryBody, isRequestClass, isAckClass,
      c1, c2, c3, c4, hlt, hd, hreqflag, hackflag]

/-- Claim C3 witness: a generic request with a zero flags word is
rejected with invalid-parameter and an empty lock trace. -/
theorem oplock_generic_no_flags_witness :
    (DokanOplockRequest ⟨true, true, true, true⟩ ⟨false, true, true, false, 0⟩
        ⟨false⟩ ⟨false, false, 0⟩ .FSCTL_REQUEST_OPLOCK ⟨0, 0⟩ 24).status =
      STATUS_INVALID_PARAMETER ∧
    (DokanOplockRequest ⟨true, true, true, true⟩ ⟨false, true, true, false, 0⟩
        ⟨false⟩ ⟨false, false, 0⟩ .FSCTL_REQUEST_OPLOCK ⟨0, 0⟩ 24).events = [] :=
  oplock_generic_no_flags _ _ _ _ _ _ ⟨rfl, rfl, rfl, rfl⟩ (by decide)
    (by decide) (by decide)

/-- Claim C4: a batch request, a filter request, or a generic request
whose flags select either the request form or the acknowledge form and
whose requested level includes `OPLOCK_LEVEL_CACHE_HANDLE`, on a Node
marked delete-pending, returns `STATUS_DELETE_PENDING` without
invoking `FsRtlOplockFsctrl` — independent of which lock-mode class
was taken. -/
theorem oplock_delete_pending_rejects (chain : IdentityChain) (env : OplockEnv)
    (dcb : DokanDCB) (fcb : DokanFCB) (code : FsCtlCode)
    (buf : OplockInputBuffer) (outLen : Nat)
    (hchain : chain.ok)
    (hbuf : code = .FSCTL_REQUEST_OPLOCK →
      REQUEST_OPLOCK_OUTPUT_BUFFER_SIZE ≤ outLen)
    (hdir : fcb.isDirectory = false ∨
      (code = .FSCTL_REQUEST_OPLOCK ∧ env.isSharedRequest = true))
    (hdel : fcb.deleteOnClose = true)
    (hkind : code = .FSCTL_REQUEST_BATCH_OPLOCK ∨
      code = .FSCTL_REQUEST_FILTER_OPLOCK ∨
      (code = .FSCTL_REQUEST_OPLOCK ∧
        FlagOn buf.RequestedOplockLevel OPLOCK_LEVEL_CACHE_HANDLE = true ∧
        (FlagOn buf.Flags REQUEST_OPLOCK_INPUT_FLAG_REQUEST = true ∨
          FlagOn buf.Flags REQUEST_OPLOCK_INPUT_FLAG_ACK = true))) :
    (DokanOplockRequest chain env dcb fcb code buf outLen).status =
      STATUS_DELETE_PENDING ∧
    (DokanOplockRequest chain env dcb fcb code buf outLen).delegated = none := by
  have hb : ¬(code = .FSCTL_REQUEST_OPLOCK ∧
      outLen < REQUEST_OPLOCK_OUTPUT_BUFFER_SIZE) := by
    rintro ⟨h1, h2⟩
    exact absurd (hbuf h1) (by omega)
  have hd : ¬(fcb.isDirectory = true ∧
      (code ≠ .FSCTL_REQUEST_OPLOCK ∨ env.isSharedRequest = false)) := by
    rcases hdir with h | ⟨hc, hs⟩
    · rintro ⟨h1, -⟩
      simp [h] at h1
    · rintro ⟨-, h2 | h2⟩
      · exact h2 hc
      · simp [hs] at h2
  rw [DokanOplockRequest_eq_tryBody chain env dcb fcb code buf outLen hchain hb hd]
  rcases hkind with hc | hc | ⟨hc, hch, hflag⟩
  · subst hc
    simp [oplockTryBody, isRequestClass, deletePendingApplies, hdel]
  · subst hc
    simp [oplockTryBody, isRequestClass, deletePendingApplies, hdel]
  · subst hc
    rcases hflag with hr | ha
    · simp [oplockTryBody, isRequestClass, deletePendingApplies, hr, hch, hdel]
    · by_cases hr2 : FlagOn buf.Flags REQUEST_OPLOCK_INPUT_FLAG_REQUEST = true
      · simp [oplockTryBody, isRequestClass, deletePendingApplies, hr2, hch, hdel]
      · simp only [Bool.not_eq_true] at hr2
        simp [oplockTryBody, isRequestClass, isAckClass, deletePendingApplies,
          hr2, ha, hch, hdel]

/-- Claim C4 witness (end-to-end scenario B): a generic shared oplock
request with the request flag set and `OPLOCK_LEVEL_CACHE_HANDLE`
requested, on a delete-pending Node, fails immediately with
delete-pending and no delegate call. -/
theorem oplock_delete_pending_rejects_witness :
    (DokanOplockRequest ⟨true, true, true, true⟩ ⟨true, true, true, false, 0⟩
        ⟨false⟩ ⟨false, true, 1⟩ .FSCTL_REQUEST_OPLOCK ⟨1, 2⟩ 24).status =
      STATUS_DELETE_PENDING ∧
    (DokanOplockRequest ⟨true, true, true, true⟩ ⟨true, true, true, false, 0⟩
        ⟨false⟩ ⟨false, true, 1⟩ .FSCTL_REQUEST_OPLOCK ⟨1, 2⟩ 24).delegated =
      none :=
  oplock_delete_pending_rejects _ _ _ _ _ _ _ ⟨rfl, rfl, rfl, rfl⟩
    (fun _ => by decide) (Or.inl rfl) rfl
    (Or.inr (Or.inr ⟨rfl, by decide, Or.inl (by decide)⟩))

/-- Claim C10: a generic `FSCTL_REQUEST_OPLOCK` whose input flags set
both the request flag and the acknowledge flag is classified
request-class (the request flag is tested first): the Volume lock is
taken shared, the Node lock exclusive (released in reverse order), and
— whenever the delete-pending rejection does not apply — the request
is delegated with the computed conflict hint, rather than taking the
acknowledge-class shared-lock path or being rejected as malformed. -/
theorem oplock_both_flags_request_class (chain : IdentityChain)
    (env : OplockEnv) (dcb : DokanDCB) (fcb : DokanFCB)
    (buf : OplockInputBuffer) (outLen : Nat)
    (hchain : chain.ok)
    (hbuf : REQUEST_OPLOCK_OUTPUT_BUFFER_SIZE ≤ outLen)
    (hdirck : fcb.isDirectory = false ∨ env.isSharedRequest = true)
    (hreq : FlagOn buf.Flags REQUEST_OPLOCK_INPUT_FLAG_REQUEST = true)
    (_hack : FlagOn buf.Flags REQUEST_OPLOCK_INPUT_FLAG_ACK = true) :
    (DokanOplockRequest chain env dcb fcb .FSCTL_REQUEST_OPLOCK buf
        outLen).events =
      [.acquireVcbShared, .acquireFcbExclusive, .releaseFcb, .releaseVcb] ∧
    (deletePendingApplies .FSCTL_REQUEST_OPLOCK buf fcb = false →
      (DokanOplockRequest chain env dcb fcb .FSCTL_REQUEST_OPLOCK buf
          outLen).delegated = some (oplockCountFor env dcb fcb)) := by
  have hb : ¬(FsCtlCode.FSCTL_REQUEST_OPLOCK = .FSCTL_REQUEST_OPLOCK ∧
      outLen < REQUEST_OPLOCK_OUTPUT_BUFFER_SIZE) := by
    rintro ⟨-, h2⟩
    omega
  have hd : ¬(fcb.isDirectory = true ∧
      (FsCtlCode.FSCTL_REQUEST_OPLOCK ≠ .FSCTL_REQUEST_OPLOCK ∨
        env.isSharedRequest = false)) := by
    rcases hdirck with h | h
    · rintro ⟨h1, -⟩
      simp [h] at h1
    · rintro ⟨-, h2 | h2⟩
      · exact h2 rfl
      · simp [h] at h2
  rw [DokanOplockRequest_eq_tryBody chain env dcb fcb _ buf outLen hchain hb hd]
  by_cases hdp : deletePendingApplies .FSCTL_REQUEST_OPLOCK buf fcb = true
  · simp [oplockTryBody, isRequestClass, hreq, hdp]
  · simp only [Bool.not_eq_true] at hdp
    simp [oplockTryBody, isRequestClass, hreq, hdp]

/-- Claim C10 witness: flags `3` (request and acknowledge both set) on
a non-directory Node take the request-class path and delegate with the
open-handle count as the hint. -/
theorem oplock_both_flags_request_class_witness :
    (DokanOplockRequest ⟨true, true, true, true⟩ ⟨false, true, true, false, 0⟩
        ⟨false⟩ ⟨false, false, 2⟩ .FSCTL_REQUEST_OPLOCK ⟨3, 0⟩ 24).events =
      [.acquireVcbShared, .acquireFcbExclusive, .releaseFcb, .releaseVcb] ∧
    (DokanOplockRequest ⟨true, true, true, true⟩ ⟨false, true, true, false, 0⟩
        ⟨false⟩ ⟨false, false, 2⟩ .FSCTL_REQUEST_OPLOCK ⟨3, 0⟩ 24).delegated =
      some 2 :=
  ⟨(oplock_both_flags_request_class _ _ _ _ _ _ ⟨rfl, rfl, rfl, rfl⟩ (by decide)
      (Or.inl rfl) (by decide) (by decide)).1,
    (oplock_both_flags_request_class _ _ _ _ _ _ ⟨rfl, rfl, rfl, rfl⟩ (by decide)
      (Or.inl rfl) (by decide) (by decide)).2 (by decide)⟩

/-- Claim C1 counterexample: with host-native locking configured
(`DOKAN_EVENT_FILELOCK_USER_MODE` clear, so the kernel's FsRtl lock
package owns byte-range locks), a level-1 request on a non-directory
Node with five open handles delegates with conflict hint 5 — not 0 as
the claim requires whenever the volume is configured for host-native
locking. -/
theorem oplock_hint_hostnative_cex :
    hostNativeLocking ⟨false⟩ = true ∧
    (DokanOplockRequest ⟨true, true, true, true⟩ ⟨false, true, true, false, 0⟩
        ⟨false⟩ ⟨false, false, 5⟩ .FSCTL_REQUEST_OPLOCK_LEVEL_1 ⟨0, 0⟩
        24).delegated = some 5 ∧
    (some 5 : Option Nat) ≠ some 0 := by
  decide

/-- Claim C1 amended: the conflict-hint computation runs exactly when
the volume is configured for host-native locking
(`DOKAN_EVENT_FILELOCK_USER_MODE` clear): then, for a shared request on
a non-directory Node the hint is 1 exactly when the current or
in-progress byte-range lock state would block the request and 0
otherwise, and for a non-shared request-class kind it is the Node's
open-handle count.  When locking is instead delegated to the user-mode
client (`DOKAN_EVENT_FILELOCK_USER_MODE` set), the hint is always 0. -/
theorem oplock_hint_amended (chain : IdentityChain) (env : OplockEnv)
    (dcb : DokanDCB) (fcb : DokanFCB) (code : FsCtlCode)
    (buf : OplockInputBuffer) (outLen : Nat)
    (hchain : chain.ok)
    (hbuf : code = .FSCTL_REQUEST_OPLOCK →
      REQUEST_OPLOCK_OUTPUT_BUFFER_SIZE ≤ outLen)
    (hreq : isRequestClass code buf = true)
    (hdir : fcb.isDirectory = false ∨
      (code = .FSCTL_REQUEST_OPLOCK ∧ env.isSharedRequest = true))
    (hdp : deletePendingApplies code buf fcb = false) :
    (dcb.filelockUserMode = true →
      (DokanOplockRequest chain env dcb fcb code buf outLen).delegated =
        some 0) ∧
    (dcb.filelockUserMode = false → env.isSharedRequest = true →
        fcb.isDirectory = false →
      (DokanOplockRequest chain env dcb fcb code buf outLen).delegated =
        some (if lockStateWouldBlock env = true then 1 else 0)) ∧
    (dcb.filelockUserMode = false → env.isSharedRequest = false →
      (DokanOplockRequest chain env dcb fcb code buf outLen).delegated =
        some fcb.FileCount) := by
  have hb : ¬(code = .FSCTL_REQUEST_OPLOCK ∧
      outLen < REQUEST_OPLOCK_OUTPUT_BUFFER_SIZE) := by
    rintro ⟨h1, h2⟩
    exact absurd (hbuf h1) (by omega)
  have hd : ¬(fcb.isDirectory = true ∧
      (code ≠ .FSCTL_REQUEST_OPLOCK ∨ env.isSharedRequest = false)) := by
    rcases hdir with h | ⟨hc, hs⟩
    · rintro ⟨h1, -⟩
      simp [h] at h1
    · rintro ⟨-, h2 | h2⟩
      · exact h2 hc
      · simp [hs] at h2
  rw [DokanOplockRequest_eq_tryBody chain env dcb fcb code buf outLen hchain hb hd]
  refine ⟨fun hu => ?_, fun hu hs hnd => ?_, fun hu hs => ?_⟩
  · simp [oplockTryBody, hreq, hdp, oplockCountFor, hu]
  · simp [oplockTryBody, hreq, hdp, oplockCountFor, hu, hs, hnd]
  · simp [oplockTryBody, hreq, hdp, oplockCountFor, hu, hs]

/-- Claim C1 amended witness (end-to-end scenario A): a level-1 request
on a non-directory Node, zero open handles and no byte-range locks,
with locking delegated to the user-mode client, delegates with hint 0. -/
theorem oplock_hint_amended_witness :
    (DokanOplockRequest ⟨true, true, true, true⟩ ⟨false, true, true, false, 0⟩
        ⟨true⟩ ⟨false, false, 0⟩ .FSCTL_REQUEST_OPLOCK_LEVEL_1 ⟨0, 0⟩
        24).delegated = some 0 :=
  (oplock_hint_amended _ _ _ _ _ _ _ ⟨rfl, rfl, rfl, rfl⟩ (fun h => by cases h)
    (by decide) (Or.inl rfl) (by decide)).1 rfl

/-- Setting an index that already holds `true` leaves the list unchanged. -/
lemma set_true_of_getD (l : List Bool) (i : Nat) (h : l.getD i false = true) :
    l.set i true = l := by
  induction l generalizing i with
  | nil => rfl
  | cons a t ih =>
    cases i with
    | zero =>
      simp only [List.getD_cons_zero] at h
      subst h
      rfl
    | succ j =>
      simp only [List.getD_cons_succ] at h
      simp [List.set, ih j h]

/-- Setting one flag to `true` raises the active count by at most one. -/
lemma activeCount_set_true_le (l : List Bool) (i : Nat) :
    activeCount (l.set i true) ≤ activeCount l + 1 := by
  induction l generalizing i with
  | nil => simp [activeCount]
  | cons a t ih =>
    cases i with
    | zero =>
      cases a <;> simp [activeCount]
      all_goals omega
    | succ j =>
      have := ih j
      cases a <;> simp [activeCount]
      all_goals omega

/-- All-zero active count means every flag is false, so setting one
gives count at most one; stated via `activeCount` directly. -/
lemma activeCount_set_true_of_zero (l : List Bool) (i : Nat)
    (h : activeCount l = 0) : activeCount (l.set i true) ≤ 1 := by
  have := activeCount_set_true_le l i
  omega

/-- Claim C6: keepalive activation — (a) when the volume flag is held
by a different HandleContext (volume active, this handle inactive) the
request fails with invalid-parameter and changes nothing; (b)
re-activation by the HandleContext already holding keepalive succeeds
and leaves both flags true, i.e. the state unchanged; (c) every success
sets both flags under the Node's exclusive lock; (d) consequently the
lifted per-volume step preserves the invariant that at most one
HandleContext has its keepalive flag set. -/
theorem keepalive_single_handle :
    (∀ s : KeepaliveState, s.vcbIsKeepaliveActive = true →
      s.ccbIsKeepaliveActive = false →
      activateKeepalive true true true true s =
        ⟨STATUS_INVALID_PARAMETER, s, []⟩) ∧
    (∀ s : KeepaliveState, s.ccbIsKeepaliveActive = true →
      s.vcbIsKeepaliveActive = true →
      activateKeepalive true true true true s =
        ⟨STATUS_SUCCESS, ⟨true, true⟩, [.acquireFcbExclusive, .releaseFcb]⟩) ∧
    (∀ (fo cv fv kk : Bool) (s : KeepaliveState),
      (activateKeepalive fo cv fv kk s).status = STATUS_SUCCESS →
      (activateKeepalive fo cv fv kk s).state = ⟨true, true⟩ ∧
      (activateKeepalive fo cv fv kk s).events =
        [.acquireFcbExclusive, .releaseFcb]) ∧
    (∀ (v : VolumeKeepalive) (i : Nat), keepaliveInv v →
      keepaliveInv (activateAt v i)) := by
  refine ⟨?_, ?_, ?_, ?_⟩
  · intro s hv hc
    simp [activateKeepalive, hv, hc]
  · intro s hc hv
    simp [activateKeepalive, hc]
  · intro fo cv fv kk s h
    unfold activateKeepalive at h ⊢
    split_ifs at h ⊢ with h1 h2 h3 h4 h5
    all_goals simp_all [STATUS_SUCCESS, STATUS_INVALID_PARAMETER]
  · intro v i hinv
    by_cases hfail : v.vcbActive = true ∧ v.handles.getD i false = false
    · have hgd : v.handles[i]?.getD false = false := by
        simpa [List.getD] using hfail.2
      have he : activateAt v i = v := by
        simp [activateAt, activateKeepalive, hfail.1, hgd,
          STATUS_INVALID_PARAMETER, STATUS_SUCCESS]
      rw [he]
      exact hinv
    · have hfail' : ¬(v.vcbActive = true ∧ v.handles[i]?.getD false = false) := by
        simpa [List.getD] using hfail
      have he : activateAt v i = ⟨true, v.handles.set i true⟩ := by
        simp [activateAt, activateKeepalive, hfail', STATUS_SUCCESS]
      rw [he]
      constructor
      · by_cases hv : v.vcbActive = false
        · exact activeCount_set_true_of_zero _ _ (hinv.2 hv)
        · simp only [Bool.not_eq_false] at hv
          have hg : v.handles.getD i false = true := by
            rcases not_and_or.mp hfail with h | h
            · exact absurd hv h
            · simpa using h
          rw [set_true_of_getD _ _ hg]
          exact hinv.1
      · simp [keepaliveInv]

/-- Claim C6 witness: with the volume keepalive held by another handle,
activation fails with invalid-parameter and leaves the flags alone. -/
theorem keepalive_single_handle_witness :
    activateKeepalive true true true true ⟨false, true⟩ =
      ⟨STATUS_INVALID_PARAMETER, ⟨false, true⟩, []⟩ :=
  keepalive_single_handle.1 ⟨false, true⟩ rfl rfl

/-- Claim C9: `DokanUserFsRequest` routing — volume lock, volume
unlock, and is-volume-mounted requests always return
`STATUS_SUCCESS` without modifying state; a reparse-point query always
returns `STATUS_NOT_A_REPARSE_POINT`; and every operation code outside
the recognized enumeration returns the dispatcher's initial
`STATUS_INVALID_DEVICE_REQUEST` (unsupported request), also without
modifying state. -/
theorem userfs_routing (req : FsRequest) (s : KeepaliveState) :
    ((req.code = .FSCTL_LOCK_VOLUME ∨ req.code = .FSCTL_UNLOCK_VOLUME ∨
        req.code = .FSCTL_IS_VOLUME_MOUNTED) →
      DokanUserFsRequest req s = (STATUS_SUCCESS, s)) ∧
    (req.code = .FSCTL_GET_REPARSE_POINT →
      DokanUserFsRequest req s = (STATUS_NOT_A_REPARSE_POINT, s)) ∧
    (∀ n : Nat, req.code = .unknown n →
      DokanUserFsRequest req s = (STATUS_INVALID_DEVICE_REQUEST, s)) := by
  refine ⟨?_, ?_, ?_⟩
  · rintro (h | h | h) <;> simp [DokanUserFsRequest, h]
  · intro h
    simp [DokanUserFsRequest, h]
  · intro n h
    simp [DokanUserFsRequest, h]

/-- Claim C9 witness: an unrecognized control code is answered with
the unsupported-request status, leaving the keepalive state alone. -/
theorem userfs_routing_witness :
    DokanUserFsRequest
      ⟨.unknown 0x90FF, ⟨true, true, true, true⟩, ⟨false, true, true, false, 0⟩,
        ⟨false⟩, ⟨false, false, 0⟩, ⟨0, 0⟩, 24, true, false, true, 0⟩
      ⟨false, false⟩ = (STATUS_INVALID_DEVICE_REQUEST, ⟨false, false⟩) :=
  (userfs_routing _ _).2.2 0x90FF rfl

/-- Claim C7: `DokanMountVolume` returns device-removed in exactly two
situations — (1) the mount device is already marked for removal, in
which case it fails before any Volume device is created, and (2) no
matching pending mount-table entry exists at publish time, in which
case the resource lock is balanced (released) and the failure is
returned with the Volume device still created, its mounted flag set,
and no mount-table entry attached.  Conversely (for any
`IoCreateDevice` outcome other than device-removed itself) a
device-removed result implies one of those two situations. -/
theorem mount_device_removed_cases (env : MountEnv) (dcb : MountDcb) :
    (dcb.extensionPresent = true → dcb.identifierIsDCB = true →
      dcb.deletePending = true →
      DokanMountVolume env dcb =
        ⟨STATUS_DEVICE_REMOVED, false, false, false, []⟩) ∧
    (dcb.extensionPresent = true → dcb.identifierIsDCB = true →
      dcb.deletePending = false → NT_SUCCESS env.ioCreateDeviceStatus →
      env.mountEntryFound = false →
      (DokanMountVolume env dcb).status = STATUS_DEVICE_REMOVED ∧
      (DokanMountVolume env dcb).volumeCreated = true ∧
      (DokanMountVolume env dcb).vcbMounted = true ∧
      (DokanMountVolume env dcb).entryAttached = false ∧
      countE .acquireResource (DokanMountVolume env dcb).events =
        countE .releaseResource (DokanMountVolume env dcb).events) ∧
    (env.ioCreateDeviceStatus ≠ STATUS_DEVICE_REMOVED →
      (DokanMountVolume env dcb).status = STATUS_DEVICE_REMOVED →
      dcb.deletePending = true ∨ env.mountEntryFound = false) := by
  refine ⟨?_, ?_, ?_⟩
  · intro h1 h2 h3
    simp [DokanMountVolume, h1, h2, h3]
  · intro h1 h2 h3 h4 h5
    by_cases hgc : dcb.fcbGarbageCollectionIntervalMs = 0 <;>
      simp [DokanMountVolume, h1, h2, h3, h4, h5, hgc, countE]
  · intro hio
    unfold DokanMountVolume
    split_ifs with h1 h2 h3 h4 h5 <;> intro hst <;>
      simp_all [STATUS_DEVICE_REMOVED, STATUS_UNRECOGNIZED_VOLUME,
        STATUS_SUCCESS]

/-- Claim C7 witness: a non-deleted mount device whose device creation
succeeds but whose pending mount-table entry is missing gets
device-removed with the volume created, mounted, unattached, and the
resource lock balanced. -/
theorem mount_device_removed_cases_witness :
    (DokanMountVolume ⟨0, false⟩ ⟨true, true, false, false, 0, false,
        false⟩).status = STATUS_DEVICE_REMOVED ∧
    (DokanMountVolume ⟨0, false⟩ ⟨true, true, false, false, 0, false,
        false⟩).volumeCreated = true ∧
    (DokanMountVolume ⟨0, false⟩ ⟨true, true, false, false, 0, false,
        false⟩).vcbMounted = true ∧
    (DokanMountVolume ⟨0, false⟩ ⟨true, true, false, false, 0, false,
        false⟩).entryAttached = false ∧
    countE .acquireResource (DokanMountVolume ⟨0, false⟩
        ⟨true, true, false, false, 0, false, false⟩).events =
      countE .releaseResource (DokanMountVolume ⟨0, false⟩
        ⟨true, true, false, false, 0, false, false⟩).events :=
  (mount_device_removed_cases ⟨0, false⟩
      ⟨true, true, false, false, 0, false, false⟩).2.1
    rfl rfl rfl (by decide) rfl

end Dokan
